import Mathlib

/-!
Verification development for the Ecotracks dashboard (`src/app.py`).

The app is a single-page Streamlit dashboard over hardcoded data.  We embed
its data tables and the logic of its four views shallowly:

* Python floats on the literal data are embedded as exact rationals (`ℚ`);
  on all of the concrete values appearing in the program the float results
  of the multiplications and `int(...)` truncations coincide with the
  rational ones, so the embedding is faithful on the program's data.
* `pandas.DataFrame`s are embedded as lists of records.
* `Series.str.contains(pat, case=False)` routes each cell through
  `re.search(pat, cell, re.IGNORECASE)`.  We embed the fragment of Python's
  regex language that is exercised here: literal characters, `.`, `|`,
  `*`, `+`, `?` and groups `(...)`, matched with Brzozowski derivatives;
  compilation is fallible (`Except`), and an unterminated group such as the
  pattern `(` is a compile error, exactly as `re.compile` raises
  `re.error: missing ), unterminated subpattern`.  Pattern characters
  outside this fragment (`[`, `\`, `^`, `$`, braces, `]`) are mapped to
  compile errors as outside the modelled fragment; none of them occurs in
  the behaviour under verification.
* Case-insensitivity is embedded by lowercasing both pattern literals and
  the searched string; the lowering handles ASCII letters and the one
  non-ASCII letter appearing in the data (`É` → `é`).  Note that `é` is not
  `e`: Python's `re.IGNORECASE` does not strip accents either.
-/

/-- Lowercasing of a single character as Python's case-insensitive regex
matching sees it: ASCII `A`–`Z` map to `a`–`z`, the accented capital `É`
(the one non-ASCII letter relevant to the data) maps to `é`, everything
else is unchanged. -/
def lowerChar (c : Char) : Char :=
  if 'A' ≤ c ∧ c ≤ 'Z' then Char.ofNat (c.toNat + 32)
  else if c = 'É' then 'é'
  else c

/-- Lowercase a string character-wise (as a character list). -/
def lowerStr (s : String) : List Char :=
  s.data.map lowerChar

/-- Regular expressions, abstract syntax: the fragment of Python `re`
exercised by the app (literals, wildcard, alternation, concatenation,
Kleene star; `fail` is the empty language, used by derivatives). -/
inductive Rx where
  | fail : Rx
  | eps : Rx
  | chr : Char → Rx
  | dot : Rx
  | alt : Rx → Rx → Rx
  | cat : Rx → Rx → Rx
  | star : Rx → Rx
deriving DecidableEq

/-- Does the regex accept the empty string? -/
def Rx.nullable : Rx → Bool
  | .fail => false
  | .eps => true
  | .chr _ => false
  | .dot => false
  | .alt a b => a.nullable || b.nullable
  | .cat a b => a.nullable && b.nullable
  | .star _ => true

/-- Brzozowski derivative of a regex with respect to one character. -/
def Rx.deriv (c : Char) : Rx → Rx
  | .fail => .fail
  | .eps => .fail
  | .chr d => if d = c then .eps else .fail
  | .dot => .eps
  | .alt a b => .alt (a.deriv c) (b.deriv c)
  | .cat a b =>
      if a.nullable then .alt (.cat (a.deriv c) b) (b.deriv c)
      else .cat (a.deriv c) b
  | .star a => .cat (a.deriv c) (.star a)

/-- Does some (possibly empty) leading segment of `s` match `r`? -/
def rxMatchStart (r : Rx) : List Char → Bool
  | [] => r.nullable
  | c :: t => r.nullable || rxMatchStart (r.deriv c) t

/-- `re.search` semantics: does `r` match starting at some position of `s`? -/
def rxSearch (r : Rx) : List Char → Bool
  | [] => r.nullable
  | c :: t => rxMatchStart r (c :: t) || rxSearch r t

/-- Characters of Python's regex language outside the embedded fragment;
patterns containing them are mapped to compile errors (none occurs in the
program's data or in the behaviour under verification). -/
def unsupportedMeta (c : Char) : Bool :=
  c = '[' || c = ']' || c = '\\' || c = '^' || c = '$' ||
  c = '\x7b' || c = '\x7d'

mutual

/-- Parse an alternation (`a|b|...`), fueled recursive descent. -/
def parseAlt : Nat → List Char → Except String (Rx × List Char)
  | 0, _ => Except.error "pattern too deeply nested"
  | Nat.succ f, s => do
      let (r, rest) ← parseCat f s
      match rest with
      | '|' :: rest2 => do
          let (r2, rest3) ← parseAlt f rest2
          pure (Rx.alt r r2, rest3)
      | _ => pure (r, rest)

/-- Parse a concatenation of repeated atoms, up to `)`, `|`, or the end. -/
def parseCat : Nat → List Char → Except String (Rx × List Char)
  | 0, _ => Except.error "pattern too deeply nested"
  | Nat.succ f, s =>
      match s with
      | [] => pure (Rx.eps, [])
      | ')' :: _ => pure (Rx.eps, s)
      | '|' :: _ => pure (Rx.eps, s)
      | _ => do
          let (r, rest) ← parseRep f s
          let (r2, rest2) ← parseCat f rest
          pure (Rx.cat r r2, rest2)

/-- Parse one atom with at most one trailing quantifier (`*`, `+`, `?`);
a second consecutive quantifier falls through to `parseAtom` and errors,
matching Python's `multiple repeat` error. -/
def parseRep : Nat → List Char → Except String (Rx × List Char)
  | 0, _ => Except.error "pattern too deeply nested"
  | Nat.succ f, s => do
      let (a, rest) ← parseAtom f s
      match rest with
      | '*' :: t => pure (Rx.star a, t)
      | '+' :: t => pure (Rx.cat a (Rx.star a), t)
      | '?' :: t => pure (Rx.alt a Rx.eps, t)
      | _ => pure (a, rest)

/-- Parse a single atom: a group, the wildcard, or a literal character. -/
def parseAtom : Nat → List Char → Except String (Rx × List Char)
  | 0, _ => Except.error "pattern too deeply nested"
  | Nat.succ f, s =>
      match s with
      | [] => Except.error "unexpected end of pattern"
      | '(' :: t => do
          let (r, rest) ← parseAlt f t
          match rest with
          | ')' :: t2 => pure (r, t2)
          | _ => Except.error "missing ), unterminated subpattern"
      | ')' :: _ => Except.error "unbalanced parenthesis"
      | '|' :: _ => Except.error "unexpected alternation"
      | '*' :: _ => Except.error "nothing to repeat"
      | '+' :: _ => Except.error "nothing to repeat"
      | '?' :: _ => Except.error "nothing to repeat"
      | '.' :: t => pure (Rx.dot, t)
      | c :: t =>
          if unsupportedMeta c then
            Except.error "pattern outside the modelled regex fragment"
          else pure (Rx.chr c, t)

end

/-- `re.compile` on the embedded fragment: parse the whole pattern or
report an error (an unterminated `(`, a dangling quantifier, ...). -/
def reCompile (pat : List Char) : Except String Rx :=
  match parseAlt (4 * pat.length + 8) pat with
  | Except.ok (r, []) => Except.ok r
  | Except.ok (_, _ :: _) => Except.error "unbalanced parenthesis"
  | Except.error e => Except.error e

/-- One row of the emission-factor table (`get_factors_data`); the float
`Factor` column is embedded as an exact rational. -/
structure EmissionFactor where
  id : String
  tipo : String
  nombre : String
  factor : ℚ
  unidad : String
  fuente : String
deriving DecidableEq

/-- The five-row emission-factor table, verbatim from `get_factors_data`. -/
def get_factors_data : List EmissionFactor :=
  [ { id := "F-001", tipo := "Combustible Líquido", nombre := "Diésel (ACPM)",
      factor := 10.15, unidad := "kgCO2e/gal", fuente := "UPME 2023" },
    { id := "F-002", tipo := "Combustible Líquido", nombre := "Gasolina Corriente",
      factor := 8.15, unidad := "kgCO2e/gal", fuente := "UPME 2023" },
    { id := "F-003", tipo := "Energía Eléctrica", nombre := "SIN Colombia",
      factor := 0.136, unidad := "kgCO2/kWh", fuente := "UPME-FECOC" },
    { id := "F-004", tipo := "Refrigerante", nombre := "R-417B",
      factor := 3235, unidad := "kgCO2e/kg", fuente := "IPCC AR5" },
    { id := "F-005", tipo := "Material", nombre := "Papel Blanco",
      factor := 1.84, unidad := "kgCO2/kg", fuente := "Defra UK" } ]

/-- The Factor Manager filter step on an arbitrary table.  Source:
`if filtro: df_factors = df_factors[df_factors['Nombre'].str.contains(filtro, case=False)]`
— the empty string is falsy, so it leaves the table whole; otherwise the
filter string is compiled as a (case-insensitive) regex and each row is
kept iff `re.search` finds a match in its `Nombre`; a compile failure
raises (`Except.error`). -/
def filterFactors (filtro : String) (tbl : List EmissionFactor) :
    Except String (List EmissionFactor) :=
  if filtro = "" then Except.ok tbl
  else
    match reCompile (lowerStr filtro) with
    | Except.error e => Except.error e
    | Except.ok r => Except.ok (tbl.filter (fun f => rxSearch r (lowerStr f.nombre)))

/-- The Factor Manager view's displayed table for a given filter string,
applied to the app's factor table. -/
def gestorFactores (filtro : String) : Except String (List EmissionFactor) :=
  filterFactors filtro get_factors_data

/-- The first row of the factor table (the diesel factor). -/
def dieselFactor : EmissionFactor :=
  { id := "F-001", tipo := "Combustible Líquido", nombre := "Diésel (ACPM)",
    factor := 10.15, unidad := "kgCO2e/gal", fuente := "UPME 2023" }

/-- Python's `int(...)` / numpy `astype(int)` on a (rational-embedded)
float: truncation toward zero. -/
def pyInt (q : ℚ) : ℤ :=
  q.num.tdiv q.den

/-- One row of the regional table built by `get_regional_data`: the two
source columns (`Regional`, `Total`) plus the derived columns the function
adds (`Alcance 1/2/3`, `Arboles`). -/
structure Region where
  regional : String
  total : ℚ
  alcance1 : ℚ
  alcance2 : ℚ
  alcance3 : ℚ
  arboles : ℤ
deriving DecidableEq

/-- The raw two-column data of `get_regional_data`, verbatim. -/
def regionalBase : List (String × ℚ) :=
  [("GRB", 0.50), ("CATENARE", 14.25), ("VRC", 46.46), ("GGS", 28.34),
   ("VRO", 36.31), ("GOR", 13.16), ("VAO", 9.07), ("CEDI", 0.38)]

/-- The derived columns `get_regional_data` adds to one raw row:
`Alcance 1 = Total * 0.75`, `Alcance 2 = Total * 0.15`,
`Alcance 3 = Total * 0.10`, `Arboles = int(Total * 40)`. -/
def mkRegion (p : String × ℚ) : Region :=
  { regional := p.1, total := p.2,
    alcance1 := p.2 * 0.75, alcance2 := p.2 * 0.15, alcance3 := p.2 * 0.10,
    arboles := pyInt (p.2 * 40) }

/-- `get_regional_data`: the eight-row regional table with its derived
columns. -/
def get_regional_data : List Region :=
  regionalBase.map mkRegion

/-- The VRC row of the regional table, derived columns included. -/
def vrcRegion : Region :=
  mkRegion ("VRC", 46.46)

/-- The record returned by `get_general_indicators`. -/
structure GeneralIndicators where
  huellaTotal : ℚ
  metaReduccion : ℚ
  alcance1Pct : ℕ
  alcance2Pct : ℕ
  alcance3Pct : ℕ
  arbolesTotales : ℤ
deriving DecidableEq

/-- `get_general_indicators`: the hardcoded general indicators;
`total_huella = 148.47` is a literal, `total_arboles = int(148.47 * 40)`. -/
def get_general_indicators : GeneralIndicators :=
  { huellaTotal := 148.47, metaReduccion := 141.05,
    alcance1Pct := 75, alcance2Pct := 15, alcance3Pct := 10,
    arbolesTotales := pyInt (148.47 * 40) }

/-- Insert a region into a list already sorted descending by `total`,
keeping earlier rows first among equal totals. -/
def insertDesc (r : Region) : List Region → List Region
  | [] => [r]
  | b :: t => if r.total ≤ b.total then b :: insertDesc r t else r :: b :: t

/-- `df_reg.sort_values(by="Total", ascending=False)`: the regional table
ordered by total descending (totals are pairwise distinct, so any correct
descending sort gives this same sequence). -/
def sortByTotalDesc : List Region → List Region
  | [] => []
  | r :: t => insertDesc r (sortByTotalDesc t)

/-- The x-axis order of the Control Panel's stacked bar chart: the
`Regional` column of the sorted table. -/
def barChartRegions : List String :=
  (sortByTotalDesc get_regional_data).map Region.regional

/-- `df_reg.loc[df_reg['Total'].idxmax()]`: the row at the first index
attaining the maximal `Total` (pandas `idxmax` returns the first maximal
index). -/
def top_regional : List Region → Option Region
  | [] => none
  | r :: t =>
      match top_regional t with
      | none => some r
      | some b => some (if r.total < b.total then b else r)

/-- A node of the graphviz decision diagram (`graph.node(...)`): its
identifier, label, and the keyword attributes passed at the call. -/
structure GNode where
  nid : String
  lbl : String
  attrs : List (String × String)
deriving DecidableEq

/-- An edge of the graphviz decision diagram (`graph.edge(...)`). -/
structure GEdge where
  src : String
  dst : String
  lbl : Option String
deriving DecidableEq

/-- A graphviz `Digraph` as built by the view. -/
structure GvGraph where
  rankdir : String
  nodes : List GNode
  edges : List GEdge
deriving DecidableEq

/-- The fixed decision-tree diagram built in the `Ingeniería de Preguntas`
view when graphviz is available, verbatim from the source. -/
def decisionGraph : GvGraph :=
  { rankdir := "TB",
    nodes :=
      [ { nid := "A", lbl := "¿Es propiedad de Massy Energy?",
          attrs := [("shape", "box"), ("style", "filled"),
                    ("fillcolor", "#002664"), ("fontcolor", "white")] },
        { nid := "B", lbl := "SI: Alcance 1 (Directo)",
          attrs := [("shape", "ellipse"), ("color", "green")] },
        { nid := "C", lbl := "NO: Alcance 3 (Indirecto)",
          attrs := [("shape", "ellipse"), ("color", "gray")] },
        { nid := "D", lbl := "¿Qué tipo de vehículo es?",
          attrs := [("shape", "box")] },
        { nid := "E", lbl := "¿Quién paga el combustible?",
          attrs := [("shape", "box")] },
        { nid := "F", lbl := "Selección: Diésel/Gasolina",
          attrs := [("shape", "note"), ("style", "filled"),
                    ("fillcolor", "#D9232D"), ("fontcolor", "white")] },
        { nid := "G", lbl := "Selección: Cliente/Proveedor",
          attrs := [("shape", "note")] } ],
    edges :=
      [ { src := "A", dst := "B", lbl := some "Si" },
        { src := "A", dst := "C", lbl := some "No" },
        { src := "B", dst := "D", lbl := none },
        { src := "C", dst := "E", lbl := none },
        { src := "D", dst := "F", lbl := none },
        { src := "E", dst := "G", lbl := none } ] }

/-- A Streamlit UI element emitted by the `Ingeniería de Preguntas` view. -/
inductive UIElem where
  | mdown : String → UIElem
  | write : String → UIElem
  | warning : String → UIElem
  | info : String → UIElem
  | codeBlock : String → UIElem
  | graphvizChart : GvGraph → UIElem
  | success : String → UIElem
deriving DecidableEq

/-- Is the element a graphical diagram rendering (`st.graphviz_chart`)? -/
def UIElem.isChart : UIElem → Bool
  | .graphvizChart _ => true
  | _ => false

/-- The textual fallback emitted when graphviz is present but rendering
raises (the `except` branch). -/
def renderFaultFallback : List UIElem :=
  [ .warning "El módulo de gráficos no pudo renderizar el diagrama.",
    .info "Flujo: Propiedad -> Sí (Alcance 1) / No (Alcance 3) -> Vehículo -> Combustible." ]

/-- The textual path emitted when graphviz failed to import (`else`
branch): a visible notice that the diagram is simplified, plus the
textual flow summary. -/
def noGraphvizElems : List UIElem :=
  [ .warning "⚠️ Librería Graphviz no detectada.",
    .info "El sistema funciona correctamente, pero la visualización del árbol lógico se ha simplificado a texto.",
    .codeBlock "Flujo Lógico:\n1. ¿Propiedad Massy? -> SÍ (A1) / NO (A3)\n2. ¿Tipo Vehículo? -> Configuración Factor\n3. ¿Combustible? -> Diésel/Gasolina" ]

/-- The attempt to build and draw the diagram inside the `try` block:
either the chart element, or the runtime fault the block may raise
(`renderFault` abstracts over any `Exception`). -/
def attemptGraphRender (renderFault : Bool) : Except String UIElem :=
  if renderFault then Except.error "runtime diagram-render fault"
  else Except.ok (UIElem.graphvizChart decisionGraph)

/-- The full `Ingeniería de Preguntas` view: header, then the
graphviz/try/except/else branching, then the three success columns.
`hasGraphviz` is the import-time availability flag; `renderFault` says
whether `st.graphviz_chart` raises on this render call (only reachable
when `hasGraphviz` is true). -/
def preguntasView (hasGraphviz : Bool) (renderFault : Bool) : List UIElem :=
  [ UIElem.mdown "### Árbol de Decisión Lógica (UX)",
    UIElem.write "Diagrama de flujo lógico para el operador." ] ++
  (if hasGraphviz then
    match attemptGraphRender renderFault with
    | Except.ok e => [e]
    | Except.error _ => renderFaultFallback
  else noGraphvizElems) ++
  [ UIElem.success "✅ **Prevención de Error**",
    UIElem.success "✅ **Cálculo Automático**",
    UIElem.success "✅ **Auditoría**" ]

/-- Process-wide state relevant to the view: the availability flag set
once at import time and never written afterwards. -/
structure AppState where
  has_graphviz : Bool
deriving DecidableEq

/-- Running the view against the process state: the source never assigns
`has_graphviz` after the import block, so the state comes back unchanged
alongside the emitted elements. -/
def runPreguntas (s : AppState) (renderFault : Bool) : AppState × List UIElem :=
  (s, preguntasView s.has_graphviz renderFault)

/-- Claim C7 helper: the top-contributor lookup is `none` only on the
empty table. -/
theorem top_regional_eq_none {l : List Region} (h : top_regional l = none) :
    l = [] := by
  cases l with
  | nil => rfl
  | cons a t =>
      exfalso
      cases htt : top_regional t <;> simp [top_regional, htt] at h

/-- Claim C2: every region's `Arboles` equals the floor of `Total * 40`;
the VRC row (total 46.46) carries 1858 trees; and the general indicator
`Arboles Totales` equals the floor of `148.47 * 40`, which is 5938. -/
theorem tree_equivalents_are_floor :
    (∀ r ∈ get_regional_data, r.arboles = ⌊r.total * 40⌋) ∧
    (vrcRegion ∈ get_regional_data ∧ vrcRegion.total = 46.46 ∧
      vrcRegion.arboles = 1858) ∧
    get_general_indicators.arbolesTotales = ⌊(148.47 : ℚ) * 40⌋ ∧
    get_general_indicators.arbolesTotales = 5938 := by
  refine ⟨?_, ⟨?_, rfl, ?_⟩, ?_, ?_⟩
  · intro r hr
    simp [get_regional_data, regionalBase, mkRegion] at hr
    rcases hr with h | h | h | h | h | h | h | h <;> subst h <;>
      norm_num [pyInt] <;> decide
  · simp [vrcRegion, get_regional_data, regionalBase]
  · norm_num [vrcRegion, mkRegion, pyInt]
    decide
  · norm_num [get_general_indicators, pyInt]
    decide
  · norm_num [get_general_indicators, pyInt]
    decide

/-- Claim C2, witness: the per-region floor law instantiated at the VRC
row. -/
theorem tree_equivalents_are_floor_vrc :
    vrcRegion.arboles = ⌊vrcRegion.total * 40⌋ :=
  tree_equivalents_are_floor.1 vrcRegion
    (by simp [vrcRegion, get_regional_data, regionalBase])

/-- Claim C3: in every region row the derived scope columns are exactly
`Total * 0.75`, `Total * 0.15`, `Total * 0.10`, and their sum is within
`1e-6` of `Total` (in the exact rational embedding it is equal). -/
theorem scope_split_sums_to_total :
    ∀ r ∈ get_regional_data,
      r.alcance1 = r.total * 0.75 ∧ r.alcance2 = r.total * 0.15 ∧
      r.alcance3 = r.total * 0.10 ∧
      |r.alcance1 + r.alcance2 + r.alcance3 - r.total| ≤ 1 / 1000000 := by
  intro r hr
  simp [get_regional_data, regionalBase, mkRegion] at hr
  rcases hr with h | h | h | h | h | h | h | h <;> subst h <;> norm_num

/-- Claim C3, witness: the scope-split law instantiated at the VRC row. -/
theorem scope_split_sums_to_total_vrc :
    vrcRegion.alcance1 = vrcRegion.total * 0.75 ∧
    vrcRegion.alcance2 = vrcRegion.total * 0.15 ∧
    vrcRegion.alcance3 = vrcRegion.total * 0.10 ∧
    |vrcRegion.alcance1 + vrcRegion.alcance2 + vrcRegion.alcance3 -
        vrcRegion.total| ≤ 1 / 1000000 :=
  scope_split_sums_to_total vrcRegion
    (by simp [vrcRegion, get_regional_data, regionalBase])

/-- Claim C4: sorting the eight regions descending by `Total` yields
exactly VRC, VRO, GGS, CATENARE, GOR, VAO, GRB, CEDI with the stated
totals, and this is the bar-chart x-axis order of the Control Panel. -/
theorem regions_sorted_desc_by_total :
    (sortByTotalDesc get_regional_data).map (fun r => (r.regional, r.total)) =
      [("VRC", 46.46), ("VRO", 36.31), ("GGS", 28.34), ("CATENARE", 14.25),
       ("GOR", 13.16), ("VAO", 9.07), ("GRB", 0.50), ("CEDI", 0.38)] ∧
    barChartRegions =
      ["VRC", "VRO", "GGS", "CATENARE", "GOR", "VAO", "GRB", "CEDI"] := by
  constructor <;>
    norm_num [barChartRegions, sortByTotalDesc, insertDesc,
      get_regional_data, regionalBase, mkRegion]

/-- Claim C8: the general indicator `Huella Total` (the literal 148.47)
equals the sum of the eight regional `Total` values, even though the
source hardcodes it instead of recomputing it. -/
theorem total_footprint_equals_region_sum :
    (get_regional_data.map Region.total).sum = get_general_indicators.huellaTotal ∧
    get_general_indicators.huellaTotal = 148.47 := by
  constructor <;>
    norm_num [get_regional_data, regionalBase, mkRegion, get_general_indicators]

/-- Claim C1, counterexample: filtering the factor table by "diesel"
(case-insensitively) does NOT return the row F-001 — it returns the empty
sequence, because the stored name is "Diésel (ACPM)" with an accented é,
which the unaccented pattern never matches. -/
theorem diesel_filter_misses_accented_name :
    (gestorFactores "diesel").map (List.map EmissionFactor.id) = Except.ok [] ∧
    (Except.ok [] : Except String (List String)) ≠ Except.ok ["F-001"] :=
  ⟨rfl, by simp⟩

/-- Claim C1, amended: filtering by "diesel" returns the empty sequence
(the stored name carries an accented é); filtering by "diésel" returns
exactly the row F-001; the empty filter returns all 5 rows; filtering by
"xyz" returns an empty sequence, not an error. -/
theorem factor_filter_results_amended :
    gestorFactores "diesel" = Except.ok [] ∧
    (gestorFactores "diésel").map (List.map EmissionFactor.id) =
      Except.ok ["F-001"] ∧
    gestorFactores "" = Except.ok get_factors_data ∧
    get_factors_data.length = 5 ∧
    gestorFactores "xyz" = Except.ok [] :=
  ⟨rfl, rfl, rfl, rfl, rfl⟩

/-- Claim C9: the Factor Manager filter string is a regular-expression
pattern, not a literal substring: the non-empty input "(" makes the
filtering step raise (a compile error, `missing ), unterminated
subpattern`) instead of returning a subset of the table. -/
theorem filter_treats_pattern_as_regex :
    gestorFactores "(" = Except.error "missing ), unterminated subpattern" ∧
    "(" ≠ "" :=
  ⟨rfl, by decide⟩

/-- Claim C10: whenever filtering succeeds, the result is a subsequence of
the input table — every returned row is an unmodified row, in the original
relative order (the filter itself never alters the table: it is a pure
function of it). -/
theorem filter_returns_subsequence :
    ∀ (tbl : List EmissionFactor) (filtro : String) (res : List EmissionFactor),
      filterFactors filtro tbl = Except.ok res →
      List.Sublist res tbl ∧ ∀ r ∈ res, r ∈ tbl := by
  intro tbl filtro res h
  unfold filterFactors at h
  by_cases he : filtro = ""
  · rw [if_pos he] at h
    injection h with h'
    subst h'
    exact ⟨List.Sublist.refl _, fun r hr => hr⟩
  · rw [if_neg he] at h
    cases hc : reCompile (lowerStr filtro) with
    | error e => rw [hc] at h; simp at h
    | ok r =>
        rw [hc] at h
        injection h with h'
        subst h'
        exact ⟨List.filter_sublist _, fun x hx => List.mem_of_mem_filter hx⟩

/-- Claim C10, witness: the subsequence property at the concrete filter
"diésel" on the app's table, whose result is the single diesel row. -/
theorem filter_returns_subsequence_data :
    List.Sublist [dieselFactor] get_factors_data ∧
    ∀ r ∈ [dieselFactor], r ∈ get_factors_data :=
  filter_returns_subsequence get_factors_data "diésel" [dieselFactor] rfl

/-- Claim C5: when the graphviz import failed (`has_graphviz = false`) the
Decision Tree view always emits the "not detected" notice, the
"simplified to text" notice and the textual flow summary, and none of its
elements is a graphical chart — regardless of the render-fault parameter,
which is unreachable on this path. -/
theorem graph_unavailable_textual_only :
    ∀ rf : Bool,
      UIElem.warning "⚠️ Librería Graphviz no detectada." ∈ preguntasView false rf ∧
      UIElem.info "El sistema funciona correctamente, pero la visualización del árbol lógico se ha simplificado a texto." ∈ preguntasView false rf ∧
      UIElem.codeBlock "Flujo Lógico:\n1. ¿Propiedad Massy? -> SÍ (A1) / NO (A3)\n2. ¿Tipo Vehículo? -> Configuración Factor\n3. ¿Combustible? -> Diésel/Gasolina" ∈ preguntasView false rf ∧
      (preguntasView false rf).all (fun e => !e.isChart) = true := by
  intro rf
  cases rf <;> decide

/-- Claim C5, witness: the textual-only property of the unavailable state,
instantiated at a concrete render-fault value. -/
theorem graph_unavailable_textual_only_data :
    UIElem.warning "⚠️ Librería Graphviz no detectada." ∈ preguntasView false true ∧
    UIElem.info "El sistema funciona correctamente, pero la visualización del árbol lógico se ha simplificado a texto." ∈ preguntasView false true ∧
    UIElem.codeBlock "Flujo Lógico:\n1. ¿Propiedad Massy? -> SÍ (A1) / NO (A3)\n2. ¿Tipo Vehículo? -> Configuración Factor\n3. ¿Combustible? -> Diésel/Gasolina" ∈ preguntasView false true ∧
    (preguntasView false true).all (fun e => !e.isChart) = true :=
  graph_unavailable_textual_only true

/-- Claim C6: with graphviz available, a runtime render fault is caught
inside the view and replaced by the static textual summary of the same
flow: the emitted elements are exactly the header, the fallback warning
and textual flow, and the footer; no element is a chart, no error escapes
(the view is total), and the availability flag in the state is returned
unchanged. -/
theorem render_fault_textual_fallback :
    runPreguntas ⟨true⟩ true =
      (⟨true⟩,
       [UIElem.mdown "### Árbol de Decisión Lógica (UX)",
        UIElem.write "Diagrama de flujo lógico para el operador.",
        UIElem.warning "El módulo de gráficos no pudo renderizar el diagrama.",
        UIElem.info "Flujo: Propiedad -> Sí (Alcance 1) / No (Alcance 3) -> Vehículo -> Combustible.",
        UIElem.success "✅ **Prevención de Error**",
        UIElem.success "✅ **Cálculo Automático**",
        UIElem.success "✅ **Auditoría**"]) ∧
    (runPreguntas ⟨true⟩ true).1 = ⟨true⟩ ∧
    (runPreguntas ⟨true⟩ true).2.all (fun e => !e.isChart) = true := by
  refine ⟨rfl, rfl, ?_⟩
  decide

/-- Claim C7: the top-contributor lookup returns an element of the table
that attains the maximal total and sits at the first position attaining
it (every earlier row is strictly smaller); on the app's data it returns
VRC with total 46.46. -/
theorem top_regional_first_max :
    (∀ (l : List Region) (r : Region), top_regional l = some r →
      r ∈ l ∧ (∀ x ∈ l, x.total ≤ r.total) ∧
      ∃ l₁ l₂, l = l₁ ++ r :: l₂ ∧ ∀ x ∈ l₁, x.total < r.total) ∧
    (top_regional get_regional_data).map (fun r => (r.regional, r.total)) =
      some ("VRC", 46.46) := by
  constructor
  · intro l
    induction l with
    | nil => intro r h; simp [top_regional] at h
    | cons a t ih =>
        intro r h
        cases ht : top_regional t with
        | none =>
            have ht0 : t = [] := top_regional_eq_none ht
            subst ht0
            simp [top_regional] at h
            subst h
            refine ⟨by simp, ?_, [], [], rfl, by simp⟩
            intro x hx
            simp at hx
            subst hx
            exact le_refl _
        | some b =>
            simp [top_regional, ht] at h
            obtain ⟨hb_mem, hb_bound, l₁, l₂, hdec, hstrict⟩ := ih b ht
            by_cases hab : a.total < b.total
            · rw [if_pos hab] at h
              subst h
              refine ⟨List.mem_cons_of_mem _ hb_mem, ?_, a :: l₁, l₂,
                by rw [hdec, List.cons_append], ?_⟩
              · intro x hx
                rcases List.mem_cons.mp hx with hxa | hxt
                · subst hxa; exact le_of_lt hab
                · exact hb_bound x hxt
              · intro x hx
                rcases List.mem_cons.mp hx with hxa | hxl
                · subst hxa; exact hab
                · exact lt_of_lt_of_le (hstrict x hxl) (le_refl _)
            · rw [if_neg hab] at h
              subst h
              refine ⟨List.mem_cons_self _ _, ?_, [], t, rfl, by simp⟩
              intro x hx
              rcases List.mem_cons.mp hx with hxa | hxt
              · subst hxa; exact le_refl _
              · exact le_trans (hb_bound x hxt) (le_of_not_lt hab)
  · norm_num [top_regional, get_regional_data, regionalBase, mkRegion]

/-- Claim C7, witness: the maximality and first-position properties at the
concrete table, whose top contributor is the VRC row. -/
theorem top_regional_first_max_data :
    vrcRegion ∈ get_regional_data ∧
    (∀ x ∈ get_regional_data, x.total ≤ vrcRegion.total) ∧
    ∃ l₁ l₂, get_regional_data = l₁ ++ vrcRegion :: l₂ ∧
      ∀ x ∈ l₁, x.total < vrcRegion.total :=
  top_regional_first_max.1 get_regional_data vrcRegion
    (by norm_num [top_regional, get_regional_data, regionalBase, mkRegion, vrcRegion])
